import Mathlib

/-!
Verification of the LIDAR road-quality viewer (`view.py`, `view2.py`).

The repository contains two variants of the same application.  The parts with
real logic are embedded here:

* `RoadDataModel._load_csv` (view.py): normalises a parsed CSV table to an
  8×8 grid, catching every failure and substituting an all-zero grid.
* `RoadDataModel._load_csv` (view2.py): a divergent variant that keeps the
  last 8 columns, never pads rows, and raises `ValueError` on a bad shape.
* `CSVLiveWatcher.check` (view.py) and `RoadDataModel.reload_if_changed`
  (view2.py): mtime-based change detection.
* `CSVLiveWatcher.update_analysis` (view.py): summary statistics.
* `Surface3DCanvas.rotate` / `reset_view` / `update_colormap`: view state.
* `ControlPanel.toggle_rotation` / `rotate_step`: the auto-rotate loop.

Numeric cells are modelled as rationals.  A cell produced by
`np.genfromtxt` is `Option ℚ`: `some q` for a numeric field, `none` for a
field parsed as NaN.  I/O effects (reading the file, `os.path.getmtime`)
are passed in as explicit `Except` arguments: `Except.error` models the
call raising an exception.
-/

/-- A cell of the array returned by `np.genfromtxt` in view.py:
`none` models a NaN produced from a non-numeric field. -/
abbrev Cell := Option ℚ

/-- A parsed CSV table (rectangular in every actual `genfromtxt` result). -/
abbrev RawTable := List (List Cell)

/-- The grid held by view.py's model (NaN cells can survive normalisation,
so cells stay `Option ℚ`). -/
abbrev Grid := List (List Cell)

/-- `numpy` shape[1] of a table: the (uniform) row width, read off the
first row. -/
def tblWidth (t : RawTable) : Nat :=
  (t.head?.map List.length).getD 0

/-- The all-zero 8×8 grid `np.zeros((8, 8))`. -/
def zeroGrid : Grid :=
  List.replicate 8 (List.replicate 8 (some (0 : ℚ)))

/-- Body of the `try` block of `RoadDataModel._load_csv` in view.py
(lines 25–36), acting on the table produced by `np.genfromtxt`:
1. drop rows whose cells are all NaN (`data[~np.isnan(data).all(axis=1)]`);
2. if fewer than 8 rows remain, prepend zero rows (`np.vstack`);
3. keep the last 8 rows and columns 1..8 (`data[-8:, 1:9]`);
4. if fewer than 8 columns remain, append zero columns (`np.hstack`).
The `ndim == 1` expand-dims step is representational only: a single-row file
is already a one-row table here. -/
def loadCsvBody (t : RawTable) : Grid :=
  let w := tblWidth t
  let d1 := t.filter (fun row => row.any (fun c => c.isSome))
  let d2 :=
    if d1.length < 8 then
      List.replicate (8 - d1.length) (List.replicate w (some (0 : ℚ))) ++ d1
    else d1
  let d3 := d2.drop (d2.length - 8)
  let d4 := d3.map (fun row => (row.drop 1).take 8)
  d4.map (fun row => row ++ List.replicate (8 - row.length) (some (0 : ℚ)))

/-- `RoadDataModel._load_csv` in view.py (lines 23–39): the whole body is
wrapped in `try/except`; any parse or I/O failure (modelled by the
`Except.error` argument) yields `np.zeros((8, 8))` together with a printed
diagnostic. -/
def RoadDataModel.load_csv (parsed : Except String RawTable) : Grid :=
  match parsed with
  | .error _ => zeroGrid
  | .ok t => loadCsvBody t

/-- Row width of a fully numeric table (view2.py grids carry no NaN in the
paths modelled here). -/
def tblWidthQ (t : List (List ℚ)) : Nat :=
  (t.head?.map List.length).getD 0

/-- `RoadDataModel._load_csv` in view2.py (lines 27–39), acting on the table
produced by `np.genfromtxt(..., skip_header=1)`:
* if more than 8 columns, keep the last 8 (`raw[:, -8:]`);
* if 8 or more rows, keep the last 8 (`raw[-8:, :]`);
* if the shape is not 8×8, raise `ValueError` — modelled as `Except.error`
  carrying the offending shape.
The `ndim == 1 and size == 64` reshape branch concerns a single-row file and
is not reachable for the multi-row tables considered here. -/
def RoadDataModel2.load_csv (raw : List (List ℚ)) :
    Except (Nat × Nat) (List (List ℚ)) :=
  let r1 :=
    if tblWidthQ raw > 8 then raw.map (fun row => row.drop (row.length - 8))
    else raw
  let r2 := if r1.length ≥ 8 then r1.drop (r1.length - 8) else r1
  if r2.length = 8 ∧ tblWidthQ r2 = 8 then .ok r2
  else .error (r2.length, tblWidthQ r2)

/-- View state of `Surface3DCanvas` (both files): elevation, azimuth,
colormap name and the current grid, initialised in `__init__`. -/
structure Surface3DCanvas where
  elev : ℚ
  azim : ℚ
  cmap : String
  Z : Grid
deriving DecidableEq

/-- `Surface3DCanvas.__init__`: elev 30, azim −60, colormap viridis. -/
def mkCanvas (Z : Grid) : Surface3DCanvas :=
  { elev := 30, azim := -60, cmap := "viridis", Z := Z }

/-- `Surface3DCanvas.rotate(d_elev=0, d_azim=0)`: adds the deltas to the
current elevation and azimuth (view.py lines 82–86, view2.py 108–112). -/
def Surface3DCanvas.rotate (c : Surface3DCanvas) (dElev dAzim : ℚ) :
    Surface3DCanvas :=
  { c with elev := c.elev + dElev, azim := c.azim + dAzim }

/-- `Surface3DCanvas.reset_view`: restores elev 30, azim −60
(view.py lines 88–91, view2.py 114–117). -/
def Surface3DCanvas.reset_view (c : Surface3DCanvas) : Surface3DCanvas :=
  { c with elev := 30, azim := -60 }

/-- `Surface3DCanvas.update_colormap(cmap)`: stores the given name with no
validation (view.py lines 93–95, view2.py 119–123); redrawing touches no
state field. -/
def Surface3DCanvas.update_colormap (c : Surface3DCanvas) (cmap : String) :
    Surface3DCanvas :=
  { c with cmap := cmap }

/-- `Surface3DCanvas.update_surface(Z)`: replaces the stored grid. -/
def Surface3DCanvas.update_surface (c : Surface3DCanvas) (Z : Grid) :
    Surface3DCanvas :=
  { c with Z := Z }

/-- The colormap combo-box items of view.py (line 199). -/
def cmapItems : List String :=
  ["viridis", "plasma", "inferno", "cividis", "coolwarm"]

/-- The colormap combo-box items of view2.py (line 175). -/
def cmapItems2 : List String :=
  ["viridis", "plasma", "inferno", "coolwarm"]

/-- Round half to even, `numpy`'s rounding rule (used by `np.round`). -/
def roundHalfEven (q : ℚ) : ℤ :=
  let f : ℤ := ⌊q⌋
  let r : ℚ := q - f
  if r < 1 / 2 then f
  else if 1 / 2 < r then f + 1
  else if f % 2 = 0 then f else f + 1

/-- `np.round(q, 2)`: round half to even at 2 decimal places. -/
def npRound2 (q : ℚ) : ℚ :=
  (roundHalfEven (q * 100) : ℚ) / 100

/-- `np.mean`: sum of all cells divided by the cell count. -/
def npMean (Z : List (List ℚ)) : ℚ :=
  (Z.map List.sum).sum / ((Z.map List.length).sum : ℚ)

/-- `np.max`: maximum over all cells (0 on an empty array, where `numpy`
would raise; no claim touches that case). -/
def npMax (Z : List (List ℚ)) : ℚ :=
  match Z.flatten with
  | [] => 0
  | x :: xs => xs.foldl max x

/-- `np.min`: minimum over all cells (0 on an empty array, as `npMax`). -/
def npMin (Z : List (List ℚ)) : ℚ :=
  match Z.flatten with
  | [] => 0
  | x :: xs => xs.foldl min x

/-- The three numbers shown by the analysis label. -/
structure AnalysisSummary where
  avg : ℚ
  maxv : ℚ
  minv : ℚ
deriving DecidableEq

/-- `CSVLiveWatcher.update_analysis(Z)` in view.py (lines 127–138):
`avg_val = np.round(np.mean(Z), 2)`, `max_val = np.max(Z)`,
`min_val = np.min(Z)`.  No scale factor is applied anywhere; the
"1 unité = 1 cm²" note in the label is a hard-coded string. -/
def update_analysis (Z : List (List ℚ)) : AnalysisSummary :=
  { avg := npRound2 (npMean Z), maxv := npMax Z, minv := npMin Z }

/-- An 8×8 grid filled uniformly with value `v`. -/
def uniformGrid (v : ℚ) : List (List ℚ) :=
  List.replicate 8 (List.replicate 8 v)

/-- Mutable state of `CSVLiveWatcher` in view.py: the cached mtime. -/
structure CSVLiveWatcher where
  lastMtime : ℚ
deriving DecidableEq

/-- `CSVLiveWatcher.check` in view.py (lines 114–125).  `stat` is the
result of `os.path.getmtime` (`Except.error` = the call raised), `parsed`
the current file content as seen by `np.genfromtxt`.  Returns the new
watcher state, the grid pushed to the canvas (if any), and the error text
written to the status label (if any).  When the mtime is unchanged, or when
stat fails, nothing is reloaded and the cache is untouched. -/
def CSVLiveWatcher.check (w : CSVLiveWatcher) (stat : Except String ℚ)
    (parsed : Except String RawTable) :
    CSVLiveWatcher × Option Grid × Option String :=
  match stat with
  | .error e => (w, none, some ("Erreur CSV : " ++ e))
  | .ok m =>
      if m ≠ w.lastMtime then
        ({ lastMtime := m }, some (RoadDataModel.load_csv parsed), none)
      else (w, none, none)

/-- Mutable state of view2.py's `RoadDataModel`: cached mtime and grid. -/
structure RoadDataModel2 where
  lastMtime : ℚ
  Z : List (List ℚ)
deriving DecidableEq

/-- `RoadDataModel.reload_if_changed` in view2.py (lines 41–50).  On a stat
failure the `except` clause swallows the error and returns `False` with the
state untouched.  When the mtime differs, `last_mtime` is assigned *before*
`_load_csv()` runs, so a load failure (its `ValueError` is also caught by
the same `except`) still consumes the mtime change while `Z` stays as it
was and `False` is returned. -/
def RoadDataModel2.reload_if_changed (md : RoadDataModel2)
    (stat : Except Unit ℚ) (raw : List (List ℚ)) : RoadDataModel2 × Bool :=
  match stat with
  | .error _ => (md, false)
  | .ok m =>
      if m ≠ md.lastMtime then
        match RoadDataModel2.load_csv raw with
        | .ok z => ({ lastMtime := m, Z := z }, true)
        | .error _ => ({ md with lastMtime := m }, false)
      else (md, false)

/-- State of `ControlPanel` relevant to auto-rotation: the `rotating` flag
and the canvas it drives. -/
structure ControlPanel where
  rotating : Bool
  canvas : Surface3DCanvas
deriving DecidableEq

/-- `ControlPanel.toggle_rotation` (view.py lines 214–217): flips the flag
(the immediate first `rotate_step()` call on enable is one tick of the
scheduler loop modelled by `runTicks`). -/
def ControlPanel.toggle_rotation (p : ControlPanel) : ControlPanel :=
  { p with rotating := !p.rotating }

/-- One scheduler tick, `ControlPanel.rotate_step` (view.py lines 219–223):
if `rotating` is off it returns at once — no `canvas.rotate`, no
`QTimer.singleShot` re-arm; otherwise it rotates the azimuth by 1 and
re-arms.  The returned Bool says whether the next tick was scheduled. -/
def ControlPanel.rotate_step (p : ControlPanel) : ControlPanel × Bool :=
  if p.rotating then
    ({ p with canvas := p.canvas.rotate 0 1 }, true)
  else (p, false)

/-- Runs up to `n` scheduler ticks, stopping as soon as a tick does not
re-arm itself (the `QTimer.singleShot` chain of view.py). -/
def runTicks : Nat → ControlPanel → ControlPanel
  | 0, p => p
  | n + 1, p =>
      let s := p.rotate_step
      if s.2 then runTicks n s.1 else s.1

/-- Test fixture: a 10-row table with an index column plus 10 data columns,
cell (i, j) holding 100·i + j. -/
def tenByEleven : List (List ℚ) :=
  (List.range 10).map (fun i => (List.range 11).map (fun j => ((100 * i + j : ℕ) : ℚ)))

/-- Test fixture: the same 10×11 table with `genfromtxt`-style cells. -/
def tenByElevenCells : RawTable :=
  (List.range 10).map (fun i =>
    (List.range 11).map (fun j => some ((100 * i + j : ℕ) : ℚ)))

/-- Test fixture: a 3-row table with an index column plus 8 data columns,
cell (i, j) holding 10·i + j. -/
def threeRowTable : RawTable :=
  (List.range 3).map (fun i =>
    (List.range 9).map (fun j => some ((10 * i + j : ℕ) : ℚ)))

/-! ## Helper lemmas -/

theorem foldl_max_replicate (v : ℚ) :
    ∀ n, (List.replicate n v).foldl max v = v
  | 0 => rfl
  | n + 1 => by
      rw [List.replicate_succ, List.foldl_cons, max_self]
      exact foldl_max_replicate v n

theorem foldl_min_replicate (v : ℚ) :
    ∀ n, (List.replicate n v).foldl min v = v
  | 0 => rfl
  | n + 1 => by
      rw [List.replicate_succ, List.foldl_cons, min_self]
      exact foldl_min_replicate v n

theorem runTicks_not_rotating (q : ControlPanel) (h : q.rotating = false) :
    ∀ n, runTicks n q = q := by
  intro n
  cases n with
  | zero => rfl
  | succ n => simp [runTicks, ControlPanel.rotate_step, h]

/-! ## Claims -/

/-- Claim C1 (code bug in view2.py).  view.py's `_load_csv` indeed returns
the all-zero 8×8 grid both when parsing fails outright (unreadable or empty
file) and on wholly non-numeric content (every cell NaN), never raising.
view2.py's `_load_csv`, however, raises `ValueError` for a perfectly
readable numeric file with only 3 data rows, and that exception propagates
to its caller — the behaviour the spec explicitly rejects as a defect. -/
theorem C1_normalize_failure_paths :
    RoadDataModel.load_csv (Except.error "unreadable") = zeroGrid ∧
    loadCsvBody (List.replicate 3 (List.replicate 4 (none : Cell))) = zeroGrid ∧
    RoadDataModel2.load_csv (List.replicate 3 (List.replicate 8 (1 : ℚ)))
      = Except.error (3, 8) :=
  ⟨rfl, by decide, rfl⟩

/-- Claim C3 counterexample: "magma" is outside the fixed colormap set, yet
`update_colormap` accepts it and replaces the prior colormap ("viridis"). -/
theorem C3_counterexample :
    ((mkCanvas []).update_colormap "magma").cmap = "magma" ∧
    "magma" ∉ cmapItems ∧
    (mkCanvas []).cmap ≠ "magma" :=
  ⟨rfl, by decide, by decide⟩

/-- Claim C3 amended: `update_colormap` stores any given name with no
membership check; the set {viridis, plasma, inferno, cividis, coolwarm} is
only view.py's combo-box item list (view2.py's list even omits cividis), so
it constrains what the UI can send, not what `update_colormap` accepts. -/
theorem C3_amended_no_validation :
    (∀ (c : Surface3DCanvas) (s : String), (c.update_colormap s).cmap = s) ∧
    cmapItems = ["viridis", "plasma", "inferno", "cividis", "coolwarm"] ∧
    "cividis" ∉ cmapItems2 :=
  ⟨fun _ _ => rfl, rfl, by decide⟩

/-- Claim C7: from the default view state (elev 30, azim −60),
`rotate(5, −10)` yields (35, −70); `reset_view` right after it — or after
any sequence of accumulated rotations from any state — restores exactly
(30, −60). -/
theorem C7_rotate_then_reset :
    (∀ Z, ((mkCanvas Z).rotate 5 (-10)).elev = 35 ∧
          ((mkCanvas Z).rotate 5 (-10)).azim = -70) ∧
    (∀ Z, (((mkCanvas Z).rotate 5 (-10)).reset_view).elev = 30 ∧
          (((mkCanvas Z).rotate 5 (-10)).reset_view).azim = -60) ∧
    (∀ (ds : List (ℚ × ℚ)) (c : Surface3DCanvas),
      ((ds.foldl (fun a p => a.rotate p.1 p.2) c).reset_view).elev = 30 ∧
      ((ds.foldl (fun a p => a.rotate p.1 p.2) c).reset_view).azim = -60) := by
  refine ⟨fun Z => ⟨?_, ?_⟩, fun Z => ⟨rfl, rfl⟩, fun ds c => ⟨rfl, rfl⟩⟩ <;>
    simp [mkCanvas, Surface3DCanvas.rotate] <;> norm_num

/-- Claim C9: `update_colormap` changes only the colormap field, leaving
elevation, azimuth and the stored grid untouched; `rotate` changes only
elevation and azimuth, leaving the colormap and the stored grid untouched. -/
theorem C9_frame_conditions :
    (∀ (c : Surface3DCanvas) (s : String),
      (c.update_colormap s).elev = c.elev ∧
      (c.update_colormap s).azim = c.azim ∧
      (c.update_colormap s).Z = c.Z) ∧
    (∀ (c : Surface3DCanvas) (a b : ℚ),
      (c.rotate a b).cmap = c.cmap ∧ (c.rotate a b).Z = c.Z) :=
  ⟨fun _ _ => ⟨rfl, rfl, rfl⟩, fun _ _ _ => ⟨rfl, rfl⟩⟩

/-- Claim C10: `rotate` is additive in its deltas, and `rotate 0 0` is the
identity on the view state. -/
theorem C10_rotate_additive :
    (∀ (c : Surface3DCanvas) (a b d e : ℚ),
      (c.rotate a b).rotate d e = c.rotate (a + d) (b + e)) ∧
    (∀ c : Surface3DCanvas, c.rotate 0 0 = c) := by
  constructor
  · intro c a b d e
    simp [Surface3DCanvas.rotate, add_assoc]
  · intro c
    simp [Surface3DCanvas.rotate]

theorem loadCsvBody_shape (t : RawTable) :
    (loadCsvBody t).length = 8 ∧ ∀ row ∈ loadCsvBody t, row.length = 8 := by
  constructor
  · simp only [loadCsvBody, List.length_map, List.length_drop]
    split
    · rename_i h
      simp only [List.length_append, List.length_replicate]
      omega
    · rename_i h
      omega
  · intro row hrow
    simp only [loadCsvBody, List.mem_map] at hrow
    obtain ⟨r, ⟨r2, hr2, rfl⟩, rfl⟩ := hrow
    simp only [List.length_append, List.length_replicate, List.length_take]
    omega

theorem npMean_uniform (v : ℚ) : npMean (uniformGrid v) = v := by
  simp [npMean, uniformGrid, List.map_replicate, List.sum_replicate, nsmul_eq_mul]
  ring_nf

theorem npMax_uniform (v : ℚ) : npMax (uniformGrid v) = v := by
  have h : npMax (uniformGrid v) = (List.replicate 63 v).foldl max v := rfl
  rw [h, foldl_max_replicate]

theorem npMin_uniform (v : ℚ) : npMin (uniformGrid v) = v := by
  have h : npMin (uniformGrid v) = (List.replicate 63 v).foldl min v := rfl
  rw [h, foldl_min_replicate]

theorem round_eighth : npRound2 ((1 / 8 : ℚ) * 1) = 12 / 100 := by
  have h : ((1 / 8 : ℚ) * 1 * 100) = 25 / 2 := by norm_num
  rw [npRound2, h]
  have hf : ⌊(25 / 2 : ℚ)⌋ = 12 := by norm_num [Int.floor_eq_iff]
  simp only [roundHalfEven, hf]
  norm_num

theorem loadCsvBody_ge8_rows (t : RawTable) (hlen : t.length = 10)
    (hw : ∀ row ∈ t, row.length = 11)
    (hval : ∀ row ∈ t, row.any (fun c => c.isSome) = true) :
    loadCsvBody t = (t.drop 2).map (fun row => (row.drop 1).take 8) := by
  have hfil : t.filter (fun row => row.any (fun c => c.isSome)) = t :=
    List.filter_eq_self.mpr hval
  have h1 : loadCsvBody t =
      ((t.drop 2).map (fun row => (row.drop 1).take 8)).map
        (fun row => row ++ List.replicate (8 - row.length) (some (0 : ℚ))) := by
    simp only [loadCsvBody, hfil, hlen]
    norm_num [List.map_drop, hlen]
  rw [h1, List.map_map]
  refine List.map_congr_left ?_
  intro r hr
  have hrt : r ∈ t := List.drop_subset 2 t hr
  have hrlen : ((r.drop 1).take 8).length = 8 := by
    simp [List.length_take, List.length_drop, hw r hrt]
  have h11 := hw r hrt
  simp [Function.comp, hrlen]
  omega

theorem loadCsvBody_short_rows (t : RawTable) (hlen : t.length = 3)
    (hw : ∀ row ∈ t, 9 ≤ row.length)
    (hval : ∀ row ∈ t, row.any (fun c => c.isSome) = true) :
    loadCsvBody t =
      List.replicate 5 (List.replicate 8 (some (0 : ℚ))) ++
        t.map (fun row => (row.drop 1).take 8) := by
  have hfil : t.filter (fun row => row.any (fun c => c.isSome)) = t :=
    List.filter_eq_self.mpr hval
  have hwge : 9 ≤ tblWidth t := by
    cases t with
    | nil => simp at hlen
    | cons a t' => simpa [tblWidth] using hw a (by simp)
  have hpad : ((List.replicate (tblWidth t) (some (0 : ℚ))).drop 1).take 8
      = List.replicate 8 (some (0 : ℚ)) := by
    rw [List.drop_replicate, List.take_replicate]
    congr 1
    omega
  simp only [loadCsvBody, hfil, hlen]
  norm_num [List.map_append, List.map_replicate, hpad]
  rw [hlen]
  norm_num
  intro r hr
  have h9 := hw r hr
  omega

/-- Claim C2 counterexample: on the uniform grid of value 1/8 (= 0.125) the
code reports max = 0.125 unrounded, whereas the claim demands the max be
scaled by 1 and rounded to 2 decimal places — 0.12 under round-half-to-even
(and 0.13 under round-half-away-from-zero, also ≠ 0.125). -/
theorem C2_counterexample :
    (update_analysis (uniformGrid (1 / 8))).maxv = 1 / 8 ∧
    npRound2 ((1 / 8 : ℚ) * 1) = 12 / 100 ∧
    (update_analysis (uniformGrid (1 / 8))).maxv ≠ npRound2 ((1 / 8 : ℚ) * 1) ∧
    (update_analysis (uniformGrid (1 / 8))).maxv ≠ 13 / 100 := by
  have hmax : (update_analysis (uniformGrid (1 / 8))).maxv = 1 / 8 :=
    npMax_uniform (1 / 8)
  refine ⟨hmax, round_eighth, ?_, ?_⟩
  · rw [hmax, round_eighth]
    norm_num
  · rw [hmax]
    norm_num

/-- Claim C2 amended: `update_analysis` takes only the grid — there is no
scale parameter (the "1 unité = 1 cm²" note is a hard-coded label).  Only
the mean is rounded to 2 decimal places (numpy's round half to even); max
and min are reported raw.  On a grid filled uniformly with `v` it therefore
returns mean = round₂(v) and max = min = `v` unrounded. -/
theorem C2_analysis_amended (v : ℚ) :
    update_analysis (uniformGrid v) =
      { avg := npRound2 v, maxv := v, minv := v } := by
  simp [update_analysis, npMean_uniform, npMax_uniform, npMin_uniform]

/-- Claim C4 counterexample: on a 10-row table with index column plus 10
data columns, view2.py's loader keeps the LAST 8 columns of each of the
last 8 rows (`raw[:, -8:]`), which differs from the claimed "data columns
1..8 after dropping index column 0". -/
theorem C4_counterexample :
    RoadDataModel2.load_csv tenByEleven
      = Except.ok ((tenByEleven.map (fun row => row.drop 3)).drop 2) ∧
    (tenByEleven.map (fun row => row.drop 3)).drop 2
      ≠ (tenByEleven.drop 2).map (fun row => (row.drop 1).take 8) := by
  constructor
  · rfl
  · decide

/-- Claim C4 amended: view.py's normaliser does keep the most recent 8
valid rows and the first 8 data columns after dropping index column 0
(10-row tables: rows 3..10 and data columns 1..8; 3-row tables: bottom 3
rows are the input rows' data columns in order below 5 zero rows).
view2.py's variant does not satisfy the claim: it keeps the last 8 columns
and pads no rows (see the counterexample). -/
theorem C4_normalize_amended :
    (∀ t : RawTable, t.length = 10 → (∀ row ∈ t, row.length = 11) →
      (∀ row ∈ t, row.any (fun c => c.isSome) = true) →
      loadCsvBody t = (t.drop 2).map (fun row => (row.drop 1).take 8)) ∧
    (∀ t : RawTable, t.length = 3 → (∀ row ∈ t, 9 ≤ row.length) →
      (∀ row ∈ t, row.any (fun c => c.isSome) = true) →
      loadCsvBody t =
        List.replicate 5 (List.replicate 8 (some (0 : ℚ))) ++
          t.map (fun row => (row.drop 1).take 8)) :=
  ⟨loadCsvBody_ge8_rows, loadCsvBody_short_rows⟩

/-- Witness for C4's amended theorem, on the concrete 10×11 and 3×9
fixtures. -/
theorem C4_normalize_amended_witness :
    (tenByElevenCells.length = 10 ∧
      (∀ row ∈ tenByElevenCells, row.length = 11) ∧
      (∀ row ∈ tenByElevenCells, row.any (fun c => c.isSome) = true) ∧
      loadCsvBody tenByElevenCells =
        (tenByElevenCells.drop 2).map (fun row => (row.drop 1).take 8)) ∧
    (threeRowTable.length = 3 ∧
      (∀ row ∈ threeRowTable, 9 ≤ row.length) ∧
      (∀ row ∈ threeRowTable, row.any (fun c => c.isSome) = true) ∧
      loadCsvBody threeRowTable =
        List.replicate 5 (List.replicate 8 (some (0 : ℚ))) ++
          threeRowTable.map (fun row => (row.drop 1).take 8)) :=
  ⟨⟨by decide, by decide, by decide,
    C4_normalize_amended.1 tenByElevenCells (by decide) (by decide) (by decide)⟩,
   ⟨by decide, by decide, by decide,
    C4_normalize_amended.2 threeRowTable (by decide) (by decide) (by decide)⟩⟩

/-- Claim C5: for every input table with at least one numeric row and at
least one numeric data column beyond column 0, view.py's normaliser
returns a grid of exactly 8 rows by 8 columns. -/
theorem C5_shape_invariant (t : RawTable)
    (hnum : ∃ row ∈ t, ∃ c ∈ row.drop 1, c.isSome) :
    (RoadDataModel.load_csv (Except.ok t)).length = 8 ∧
    ∀ row ∈ RoadDataModel.load_csv (Except.ok t), row.length = 8 :=
  loadCsvBody_shape t

/-- Witness for C5 on a one-row table with one data column. -/
theorem C5_shape_invariant_witness :
    (∃ row ∈ [[some (3 : ℚ), some 7]], ∃ c ∈ row.drop 1, c.isSome) ∧
    (RoadDataModel.load_csv (Except.ok [[some (3 : ℚ), some 7]])).length = 8 ∧
    ∀ row ∈ RoadDataModel.load_csv (Except.ok [[some (3 : ℚ), some 7]]),
      row.length = 8 :=
  ⟨⟨[some 3, some 7], by simp, some 7, by simp⟩,
   C5_shape_invariant [[some (3 : ℚ), some 7]]
     ⟨[some 3, some 7], by simp, some 7, by simp⟩⟩

/-- Claim C6 counterexample: in view2.py, a poll where the stat call
succeeds and the mtime (1) differs from the cached value (0) can still
produce no new grid — here the file reloads into a 3×8 table, `_load_csv`
raises, the `except` swallows it, and `reload_if_changed` returns `false`
with the cached mtime nevertheless consumed (set to 1, grid unchanged).
The claimed "returns a new grid exactly when stat succeeds and mtime
differs" is therefore false on view2.py. -/
theorem C6_counterexample :
    (1 : ℚ) ≠ (RoadDataModel2.mk 0 [] : RoadDataModel2).lastMtime ∧
    RoadDataModel2.reload_if_changed ⟨0, []⟩ (Except.ok 1)
        (List.replicate 3 (List.replicate 8 (0 : ℚ)))
      = (⟨1, []⟩, false) := by
  constructor
  · norm_num
  · simp [RoadDataModel2.reload_if_changed, RoadDataModel2.load_csv, tblWidthQ]

/-- Claim C6 amended: view.py's `check` does satisfy the claim — its loader
is total, so a poll yields a new grid exactly when stat succeeds and the
mtime differs; an unchanged mtime yields nothing (also across two
consecutive polls); a stat failure reports the error, leaves the cache
unaltered, yields no grid, and a later successful differing poll reloads.
In view2.py a reload failure silently consumes the mtime change without
producing a grid, so the "exactly when" holds only for view.py. -/
theorem C6_poll_amended :
    (∀ (w : CSVLiveWatcher) (m : ℚ) (parsed : Except String RawTable),
      m = w.lastMtime → w.check (Except.ok m) parsed = (w, none, none)) ∧
    (∀ (w : CSVLiveWatcher) (m : ℚ) (p1 p2 : Except String RawTable),
      m = w.lastMtime →
        ((w.check (Except.ok m) p1).1).check (Except.ok m) p2
          = (w, none, none)) ∧
    (∀ (w : CSVLiveWatcher) (m : ℚ) (parsed : Except String RawTable),
      m ≠ w.lastMtime →
        w.check (Except.ok m) parsed =
          (⟨m⟩, some (RoadDataModel.load_csv parsed), none)) ∧
    (∀ (w : CSVLiveWatcher) (e : String) (parsed : Except String RawTable),
      w.check (Except.error e) parsed
        = (w, none, some ("Erreur CSV : " ++ e))) ∧
    (∀ (w : CSVLiveWatcher) (e : String) (m : ℚ)
        (p1 p2 : Except String RawTable),
      m ≠ w.lastMtime →
        ((w.check (Except.error e) p1).1).check (Except.ok m) p2 =
          (⟨m⟩, some (RoadDataModel.load_csv p2), none)) := by
  refine ⟨?_, ?_, ?_, ?_, ?_⟩
  · intro w m parsed h
    simp [CSVLiveWatcher.check, h]
  · intro w m p1 p2 h
    simp [CSVLiveWatcher.check, h]
  · intro w m parsed h
    simp [CSVLiveWatcher.check, h]
  · intro w e parsed
    rfl
  · intro w e m p1 p2 h
    simp [CSVLiveWatcher.check, h]

/-- Witness for C6's amended theorem at concrete mtimes 0 and 1. -/
theorem C6_poll_amended_witness :
    ((0 : ℚ) = (CSVLiveWatcher.mk 0).lastMtime ∧
      CSVLiveWatcher.check ⟨0⟩ (Except.ok 0) (Except.error "x")
        = (⟨0⟩, none, none)) ∧
    ((1 : ℚ) ≠ (CSVLiveWatcher.mk 0).lastMtime ∧
      CSVLiveWatcher.check ⟨0⟩ (Except.ok 1) (Except.error "x")
        = (⟨1⟩, some (RoadDataModel.load_csv (Except.error "x")), none)) ∧
    CSVLiveWatcher.check ⟨0⟩ (Except.error "gone") (Except.error "x")
      = (⟨0⟩, none, some "Erreur CSV : gone") :=
  ⟨⟨rfl, C6_poll_amended.1 ⟨0⟩ 0 (Except.error "x") rfl⟩,
   ⟨by norm_num,
    C6_poll_amended.2.2.1 ⟨0⟩ 1 (Except.error "x") (by norm_num)⟩,
   C6_poll_amended.2.2.2.1 ⟨0⟩ "gone" (Except.error "x")⟩

/-- Claim C8: once auto-rotate is toggled off, the flag is checked at the
top of every scheduled `rotate_step` tick, so no later tick rotates the
azimuth or re-arms the timer: the azimuth stays fixed over any number of
subsequent ticks. -/
theorem C8_toggle_off_stops (p : ControlPanel) (h : p.rotating = true) :
    (p.toggle_rotation).rotating = false ∧
    ((p.toggle_rotation).rotate_step).2 = false ∧
    (∀ n, runTicks n p.toggle_rotation = p.toggle_rotation) ∧
    (∀ n, (runTicks n p.toggle_rotation).canvas.azim = p.canvas.azim) := by
  have hoff : (p.toggle_rotation).rotating = false := by
    simp [ControlPanel.toggle_rotation, h]
  refine ⟨hoff, ?_, runTicks_not_rotating _ hoff, ?_⟩
  · simp [ControlPanel.rotate_step, hoff]
  · intro n
    rw [runTicks_not_rotating _ hoff n]
    rfl

/-- Witness for C8: a concrete rotating panel, disabled, then 5 ticks. -/
theorem C8_toggle_off_stops_witness :
    (ControlPanel.mk true (mkCanvas [])).rotating = true ∧
    (runTicks 5 (ControlPanel.toggle_rotation ⟨true, mkCanvas []⟩)).canvas.azim
      = (ControlPanel.mk true (mkCanvas [])).canvas.azim :=
  ⟨rfl, (C8_toggle_off_stops ⟨true, mkCanvas []⟩ rfl).2.2.2 5⟩
